import Mathlib

/-!
Shallow embedding of the authorization / approval model of the
property-management application (profiles, roles, row-level-security
policies, the client-side approval guard, the admin approval workflow and
the multi-step signup flow), together with theorems settling the spec's
claims about it.

The database schema and the row-level-security policies are embedded from
the SQL migrations; the client-side operations (ApprovalGuard,
updateApproval, handleSignup) are embedded from the React pages.
-/

namespace Machaco

/-- Enum `public.approval_status` from the first migration. -/
inductive ApprovalStatus
  | pending
  | approved
  | rejected
deriving DecidableEq, Repr

/-- Enum `public.app_role` from the first migration. -/
inductive AppRole
  | super_admin
  | property_owner
deriving DecidableEq, Repr

/-- Row of `public.profiles` (first migration plus the KYC columns added by
the second migration).  UUIDs are modelled as `Nat`, timestamps as `Nat`,
dates and text as `String`. -/
structure Profile where
  id : Nat
  email : String
  full_name : Option String
  phone : Option String
  avatar_url : Option String
  approval_status : ApprovalStatus
  created_at : Nat
  updated_at : Nat
  date_of_birth : Option String
  residential_address : Option String
  city : Option String
  country : Option String
  postal_code : Option String
  id_type : Option String
  id_number : Option String
  id_document_url : Option String
  payment_method : Option String
  payment_provider : Option String
  billing_address : Option String
  security_deposit_agreed : Bool
  terms_accepted : Bool
  terms_accepted_at : Option String
deriving DecidableEq, Repr

/-- Row of `public.user_roles`. -/
structure UserRole where
  id : Nat
  user_id : Nat
  role : AppRole
deriving DecidableEq, Repr

/-- Row of `public.properties` (authorization-relevant columns). -/
structure Property where
  id : Nat
  owner_id : Nat
deriving DecidableEq, Repr

/-- Row of `public.units` (authorization-relevant columns). -/
structure UnitRow where
  id : Nat
  property_id : Nat
deriving DecidableEq, Repr

/-- Row of `public.tenants` (authorization-relevant columns). -/
structure Tenant where
  id : Nat
  owner_id : Nat
deriving DecidableEq, Repr

/-- Row of `public.leases` (authorization-relevant columns). -/
structure Lease where
  id : Nat
  unit_id : Nat
  tenant_id : Nat
deriving DecidableEq, Repr

/-- Row of `public.payments` (authorization-relevant columns). -/
structure Payment where
  id : Nat
  lease_id : Nat
deriving DecidableEq, Repr

/-- Row of `public.maintenance_requests` (authorization-relevant columns). -/
structure MaintenanceRequest where
  id : Nat
  unit_id : Nat
deriving DecidableEq, Repr

/-- Row of `public.admin_activity_logs` (third migration). -/
structure AdminActivityLog where
  id : Nat
  admin_id : Nat
  action : String
  target_user_id : Option Nat
  target_user_email : Option String
  details : Option String
  created_at : Nat
deriving DecidableEq, Repr

/-- The database state: one list per table of the schema. -/
structure DB where
  profiles : List Profile
  user_roles : List UserRole
  properties : List Property
  units : List UnitRow
  tenants : List Tenant
  leases : List Lease
  payments : List Payment
  maintenance_requests : List MaintenanceRequest
  admin_activity_logs : List AdminActivityLog
deriving DecidableEq, Repr

/-- SQL function `public.has_role(_user_id, _role)`:
`EXISTS (SELECT 1 FROM user_roles WHERE user_id = _user_id AND role = _role)`. -/
def has_role (db : DB) (u : Nat) (r : AppRole) : Bool :=
  db.user_roles.any (fun row => row.user_id == u && row.role == r)

/-- SQL function `public.get_user_property_ids(_user_id)`:
`SELECT id FROM properties WHERE owner_id = _user_id`. -/
def get_user_property_ids (db : DB) (u : Nat) : List Nat :=
  (db.properties.filter (fun p => p.owner_id == u)).map Property.id

/-- Membership test for `x IN (subquery)` over a list of ids. -/
def inIds (ids : List Nat) (x : Nat) : Bool :=
  ids.any (fun y => y == x)

/-- The four row-level operations a policy can govern. -/
inductive Op
  | select
  | insert
  | update
  | delete
deriving DecidableEq, Repr

/-- Policies on `public.profiles`: own-row select/update/insert, plus
super-admin select and update (no delete policy exists). -/
def profiles_policy (db : DB) (uid : Nat) (op : Op) (row : Profile) : Bool :=
  match op with
  | Op.select => uid == row.id || has_role db uid AppRole.super_admin
  | Op.update => uid == row.id || has_role db uid AppRole.super_admin
  | Op.insert => uid == row.id
  | Op.delete => false

/-- Policies on `public.user_roles`: own-row select, and a super-admin
`FOR ALL` manage policy. -/
def user_roles_policy (db : DB) (uid : Nat) (op : Op) (row : UserRole) : Bool :=
  match op with
  | Op.select => uid == row.user_id || has_role db uid AppRole.super_admin
  | _ => has_role db uid AppRole.super_admin

/-- Policies on `public.properties`: owner select and owner `FOR ALL`
manage, plus super-admin select only. -/
def properties_policy (db : DB) (uid : Nat) (op : Op) (row : Property) : Bool :=
  match op with
  | Op.select => uid == row.owner_id || has_role db uid AppRole.super_admin
  | _ => uid == row.owner_id

/-- The ownership condition of the units policies:
`property_id IN (SELECT get_user_property_ids(auth.uid()))`. -/
def unit_owned (db : DB) (uid : Nat) (row : UnitRow) : Bool :=
  inIds (get_user_property_ids db uid) row.property_id

/-- Policies on `public.units`: owner select and owner `FOR ALL` manage via
the owned-property chain, plus super-admin select only. -/
def units_policy (db : DB) (uid : Nat) (op : Op) (row : UnitRow) : Bool :=
  match op with
  | Op.select => unit_owned db uid row || has_role db uid AppRole.super_admin
  | _ => unit_owned db uid row

/-- Policies on `public.tenants`: owner select and owner `FOR ALL` manage,
plus super-admin select only. -/
def tenants_policy (db : DB) (uid : Nat) (op : Op) (row : Tenant) : Bool :=
  match op with
  | Op.select => uid == row.owner_id || has_role db uid AppRole.super_admin
  | _ => uid == row.owner_id

/-- The ownership condition of the leases policies:
`unit_id IN (SELECT id FROM units WHERE property_id IN owned)`. -/
def lease_owned (db : DB) (uid : Nat) (row : Lease) : Bool :=
  db.units.any (fun u =>
    u.id == row.unit_id && inIds (get_user_property_ids db uid) u.property_id)

/-- Policies on `public.leases`: owner select and owner `FOR ALL` manage via
the unit-property chain, plus super-admin select only. -/
def leases_policy (db : DB) (uid : Nat) (op : Op) (row : Lease) : Bool :=
  match op with
  | Op.select => lease_owned db uid row || has_role db uid AppRole.super_admin
  | _ => lease_owned db uid row

/-- The ownership condition of the payments policies:
`lease_id IN (SELECT l.id FROM leases l JOIN units u ON l.unit_id = u.id
WHERE u.property_id IN owned)`. -/
def payment_owned (db : DB) (uid : Nat) (row : Payment) : Bool :=
  db.leases.any (fun l =>
    l.id == row.lease_id &&
      db.units.any (fun u =>
        u.id == l.unit_id && inIds (get_user_property_ids db uid) u.property_id))

/-- Policies on `public.payments`: owner select and owner `FOR ALL` manage
via the lease-unit-property chain, plus super-admin select only. -/
def payments_policy (db : DB) (uid : Nat) (op : Op) (row : Payment) : Bool :=
  match op with
  | Op.select => payment_owned db uid row || has_role db uid AppRole.super_admin
  | _ => payment_owned db uid row

/-- The ownership condition of the maintenance policies:
`unit_id IN (SELECT id FROM units WHERE property_id IN owned)`. -/
def maintenance_owned (db : DB) (uid : Nat) (row : MaintenanceRequest) : Bool :=
  db.units.any (fun u =>
    u.id == row.unit_id && inIds (get_user_property_ids db uid) u.property_id)

/-- Policies on `public.maintenance_requests`: owner select and owner
`FOR ALL` manage via the unit-property chain, plus super-admin select only. -/
def maintenance_policy (db : DB) (uid : Nat) (op : Op) (row : MaintenanceRequest) : Bool :=
  match op with
  | Op.select => maintenance_owned db uid row || has_role db uid AppRole.super_admin
  | _ => maintenance_owned db uid row

/-- Policies on `public.admin_activity_logs`: super-admin select and insert
only (insert-only table: no update or delete policy). -/
def admin_activity_logs_policy (db : DB) (uid : Nat) (op : Op)
    (_row : AdminActivityLog) : Bool :=
  match op with
  | Op.select => has_role db uid AppRole.super_admin
  | Op.insert => has_role db uid AppRole.super_admin
  | _ => false

/-- Look up a property row by primary key. -/
def lookupProperty (db : DB) (pid : Nat) : Option Property :=
  db.properties.find? (fun p => p.id == pid)

/-- Look up a unit row by primary key. -/
def lookupUnit (db : DB) (uid : Nat) : Option UnitRow :=
  db.units.find? (fun u => u.id == uid)

/-- Look up a lease row by primary key. -/
def lookupLease (db : DB) (lid : Nat) : Option Lease :=
  db.leases.find? (fun l => l.id == lid)

/-- Root owner of a property row: its own `owner_id`. -/
def rootOwnerProperty (_db : DB) (row : Property) : Option Nat :=
  some row.owner_id

/-- Root owner of a unit row, resolved through `property_id`. -/
def rootOwnerUnit (db : DB) (row : UnitRow) : Option Nat :=
  (lookupProperty db row.property_id).map Property.owner_id

/-- Root owner of a tenant row: its own `owner_id`. -/
def rootOwnerTenant (_db : DB) (row : Tenant) : Option Nat :=
  some row.owner_id

/-- Root owner of a lease row, resolved through `unit_id` then
`property_id`. -/
def rootOwnerLease (db : DB) (row : Lease) : Option Nat :=
  (lookupUnit db row.unit_id).bind (fun u => rootOwnerUnit db u)

/-- Root owner of a payment row, resolved through `lease_id`, `unit_id`,
then `property_id`. -/
def rootOwnerPayment (db : DB) (row : Payment) : Option Nat :=
  (lookupLease db row.lease_id).bind (fun l => rootOwnerLease db l)

/-- Root owner of a maintenance-request row, resolved through `unit_id`
then `property_id`. -/
def rootOwnerMaintenance (db : DB) (row : MaintenanceRequest) : Option Nat :=
  (lookupUnit db row.unit_id).bind (fun u => rootOwnerUnit db u)

/-- Well-formedness of a database state: primary keys are unique in the
tables the ownership chain traverses. -/
def DB.wf (db : DB) : Prop :=
  (db.properties.map Property.id).Nodup ∧
  (db.units.map UnitRow.id).Nodup ∧
  (db.leases.map Lease.id).Nodup

instance (db : DB) : Decidable db.wf := by
  unfold DB.wf
  infer_instance

/-- Error raised by the query service on a denied write. -/
inductive DataError
  | permissionDenied
deriving DecidableEq, Repr

/-- Reads on `properties` as executed by the query service: rows not
passing any SELECT policy are filtered out of the result. -/
def select_properties (db : DB) (uid : Nat) : List Property :=
  db.properties.filter (fun row => properties_policy db uid Op.select row)

/-- Reads on `units` under row-level security. -/
def select_units (db : DB) (uid : Nat) : List UnitRow :=
  db.units.filter (fun row => units_policy db uid Op.select row)

/-- Reads on `tenants` under row-level security. -/
def select_tenants (db : DB) (uid : Nat) : List Tenant :=
  db.tenants.filter (fun row => tenants_policy db uid Op.select row)

/-- Reads on `leases` under row-level security. -/
def select_leases (db : DB) (uid : Nat) : List Lease :=
  db.leases.filter (fun row => leases_policy db uid Op.select row)

/-- Reads on `payments` under row-level security. -/
def select_payments (db : DB) (uid : Nat) : List Payment :=
  db.payments.filter (fun row => payments_policy db uid Op.select row)

/-- Reads on `maintenance_requests` under row-level security. -/
def select_maintenance (db : DB) (uid : Nat) : List MaintenanceRequest :=
  db.maintenance_requests.filter (fun row => maintenance_policy db uid Op.select row)

/-- Modelled from the spec: the enforcement semantics of the external
query/command service is not repository code; per the spec an unauthorized
write fails with `PermissionDenied` and applies nothing, while an admitted
update replaces the targeted row.  The admission predicate itself is the
embedded policy from the migrations. -/
def write_property (db : DB) (uid : Nat) (row newRow : Property) : Except DataError DB :=
  if properties_policy db uid Op.update row then
    Except.ok { db with properties := db.properties.map (fun p => if p.id == row.id then newRow else p) }
  else Except.error DataError.permissionDenied

/-- Modelled from the spec: write on `units` through the external query
service; denied writes fail with `PermissionDenied` and apply nothing. -/
def write_unit (db : DB) (uid : Nat) (row newRow : UnitRow) : Except DataError DB :=
  if units_policy db uid Op.update row then
    Except.ok { db with units := db.units.map (fun u => if u.id == row.id then newRow else u) }
  else Except.error DataError.permissionDenied

/-- Modelled from the spec: write on `tenants` through the external query
service; denied writes fail with `PermissionDenied` and apply nothing. -/
def write_tenant (db : DB) (uid : Nat) (row newRow : Tenant) : Except DataError DB :=
  if tenants_policy db uid Op.update row then
    Except.ok { db with tenants := db.tenants.map (fun t => if t.id == row.id then newRow else t) }
  else Except.error DataError.permissionDenied

/-- Modelled from the spec: write on `leases` through the external query
service; denied writes fail with `PermissionDenied` and apply nothing. -/
def write_lease (db : DB) (uid : Nat) (row newRow : Lease) : Except DataError DB :=
  if leases_policy db uid Op.update row then
    Except.ok { db with leases := db.leases.map (fun l => if l.id == row.id then newRow else l) }
  else Except.error DataError.permissionDenied

/-- Modelled from the spec: write on `payments` through the external query
service; denied writes fail with `PermissionDenied` and apply nothing. -/
def write_payment (db : DB) (uid : Nat) (row newRow : Payment) : Except DataError DB :=
  if payments_policy db uid Op.update row then
    Except.ok { db with payments := db.payments.map (fun p => if p.id == row.id then newRow else p) }
  else Except.error DataError.permissionDenied

/-- Modelled from the spec: write on `maintenance_requests` through the
external query service; denied writes fail with `PermissionDenied` and
apply nothing. -/
def write_maintenance (db : DB) (uid : Nat) (row newRow : MaintenanceRequest) : Except DataError DB :=
  if maintenance_policy db uid Op.update row then
    Except.ok { db with maintenance_requests := db.maintenance_requests.map (fun m => if m.id == row.id then newRow else m) }
  else Except.error DataError.permissionDenied

/-- Modelled from the spec: the `useAuth` hook (not among the sources)
provides `hasRole`; per the spec role checks are existence checks over the
caller's role set. -/
def hasRole (roles : List AppRole) (r : AppRole) : Bool :=
  roles.any (fun x => x == r)

/-- Modelled from the spec: the `useAuth` hook (not among the sources)
provides `isApproved`; per the spec the guard's not-approved gate is
`profile.approval_status ≠ approved`. -/
def isApproved (profile : Option ApprovalStatus) : Bool :=
  profile == some ApprovalStatus.approved

/-- What the guard renders for one navigation. -/
inductive GuardRender
  | loadingView
  | redirectToAuth
  | content
  | pendingView
  | rejectedView
deriving DecidableEq, Repr

/-- The `ApprovalGuard` component: its chain of early returns, in source
order (loading placeholder; redirect when no user; super-admin bypass;
pending view when not approved; rejected view; otherwise the children). -/
def ApprovalGuard (loading : Bool) (user : Option Nat) (roles : List AppRole)
    (profile : Option ApprovalStatus) : GuardRender :=
  if loading then GuardRender.loadingView
  else if user.isNone then GuardRender.redirectToAuth
  else if hasRole roles AppRole.super_admin then GuardRender.content
  else if !(isApproved profile) then GuardRender.pendingView
  else if profile == some ApprovalStatus.rejected then GuardRender.rejectedView
  else GuardRender.content

/-- `updateApproval` from the admin page:
`supabase.from(profiles).update(approval_status = status).eq(id, userId)`,
executed under row-level security (only rows visible to the caller's UPDATE
policy are affected), together with the `update_updated_at_column` trigger
which sets `updated_at` on every updated row.  `t` is the current time.
No other table is touched; in particular no audit-log row is inserted. -/
def updateApproval (db : DB) (caller userId : Nat) (status : ApprovalStatus)
    (t : Nat) : DB :=
  { db with profiles := db.profiles.map (fun p =>
      if p.id == userId && profiles_policy db caller Op.update p then
        { p with approval_status := status, updated_at := t }
      else p) }

/-- A freshly registered identity as seen by the `handle_new_user` trigger
(`NEW.id`, `NEW.email`, `NEW.raw_user_meta_data ->> full_name`). -/
structure NewUser where
  id : Nat
  email : String
  raw_full_name : Option String
deriving DecidableEq, Repr

/-- SQL trigger function `public.handle_new_user()`: inserts one profile
row (unspecified columns take their schema defaults, in particular
`approval_status DEFAULT pending` and `id_type DEFAULT national_id`)
and one `user_roles` row with role `property_owner`.  `t` is the insertion
time and `roleRowId` the generated primary key of the role row. -/
def handle_new_user (db : DB) (nu : NewUser) (t roleRowId : Nat) : DB :=
  { db with
    profiles := db.profiles ++
      [{ id := nu.id
         email := nu.email
         full_name := nu.raw_full_name
         phone := none
         avatar_url := none
         approval_status := ApprovalStatus.pending
         created_at := t
         updated_at := t
         date_of_birth := none
         residential_address := none
         city := none
         country := none
         postal_code := none
         id_type := some "national_id"
         id_number := none
         id_document_url := none
         payment_method := none
         payment_provider := none
         billing_address := none
         security_deposit_agreed := false
         terms_accepted := false
         terms_accepted_at := none }]
    user_roles := db.user_roles ++
      [{ id := roleRowId, user_id := nu.id, role := AppRole.property_owner }] }

/-- How `handleSignup` reports back to the user. -/
inductive SignupReport
  | successToastAndNavigate
  | failureToast (msg : String)
deriving DecidableEq, Repr

/-- Observable effects of one run of `handleSignup`. -/
structure SignupEffects where
  report : SignupReport
  consoleErrors : List String
  profileUpdateApplied : Bool
  idDocumentUrlSent : Option String
deriving DecidableEq, Repr

/-- The `handleSignup` control flow from the auth page, as a function of
the outcomes of its three external calls: account creation
(`supabase.auth.signUp`), ID-document upload (`storage.upload`, yielding a
public URL on success) and the follow-up profile update with the KYC
fields.  An upload error is only logged and leaves the document URL null;
a profile-update error is only logged; the success toast and the redirect
to the dashboard happen whenever account creation succeeded. -/
def handleSignup (signUpRes : Except String Nat)
    (uploadRes : Except String String)
    (profileUpdateErr : Option String) : SignupEffects :=
  match signUpRes with
  | Except.error e =>
    { report := SignupReport.failureToast e
      consoleErrors := []
      profileUpdateApplied := false
      idDocumentUrlSent := none }
  | Except.ok _uid =>
    let docPart : Option String × List String :=
      match uploadRes with
      | Except.error e => (none, ["ID upload error: " ++ e])
      | Except.ok url => (some url, [])
    let updErrs : List String :=
      match profileUpdateErr with
      | some e => ["Profile update error: " ++ e]
      | none => []
    { report := SignupReport.successToastAndNavigate
      consoleErrors := docPart.2 ++ updErrs
      profileUpdateApplied := profileUpdateErr.isNone
      idDocumentUrlSent := docPart.1 }

/-- A profile row with the schema defaults in the non-identifying columns. -/
def mkProfile (i : Nat) (e : String) (st : ApprovalStatus) : Profile :=
  { id := i
    email := e
    full_name := none
    phone := none
    avatar_url := none
    approval_status := st
    created_at := 0
    updated_at := 0
    date_of_birth := none
    residential_address := none
    city := none
    country := none
    postal_code := none
    id_type := some "national_id"
    id_number := none
    id_document_url := none
    payment_method := none
    payment_provider := none
    billing_address := none
    security_deposit_agreed := false
    terms_accepted := false
    terms_accepted_at := none }

/-- A small concrete database: identity 10 is a property owner with one
full ownership chain (property 1, unit 2, lease 3, payment 4, maintenance
request 5, tenant 7); identity 20 holds super_admin and owns nothing;
identity 30 holds no role and owns nothing. -/
def exDB : DB :=
  { profiles := [mkProfile 10 "owner@x.com" ApprovalStatus.pending]
    user_roles := [{ id := 0, user_id := 20, role := AppRole.super_admin }]
    properties := [{ id := 1, owner_id := 10 }]
    units := [{ id := 2, property_id := 1 }]
    tenants := [{ id := 7, owner_id := 10 }]
    leases := [{ id := 3, unit_id := 2, tenant_id := 7 }]
    payments := [{ id := 4, lease_id := 3 }]
    maintenance_requests := [{ id := 5, unit_id := 2 }]
    admin_activity_logs := [] }

/-- A fresh registration input for concrete runs of `handle_new_user`. -/
def nu0 : NewUser :=
  { id := 1, email := "a@x.com", raw_full_name := none }

/-- The empty database, before any registration. -/
def emptyDB : DB :=
  { profiles := []
    user_roles := []
    properties := []
    units := []
    tenants := []
    leases := []
    payments := []
    maintenance_requests := []
    admin_activity_logs := [] }

/-- What actually holds for a super_admin caller: reads succeed everywhere
regardless of ownership, profile updates and all role writes succeed, but
updates on owned-resource rows whose resolved root owner is another
identity are denied (the admin policies on those tables are SELECT-only). -/
def AdminBypassSpec (db : DB) (uid : Nat) : Prop :=
  (∀ p : Profile, profiles_policy db uid Op.select p = true ∧
      profiles_policy db uid Op.update p = true) ∧
  (∀ r : UserRole, ∀ op : Op, user_roles_policy db uid op r = true) ∧
  (∀ row : Property, properties_policy db uid Op.select row = true) ∧
  (∀ row : UnitRow, units_policy db uid Op.select row = true) ∧
  (∀ row : Tenant, tenants_policy db uid Op.select row = true) ∧
  (∀ row : Lease, leases_policy db uid Op.select row = true) ∧
  (∀ row : Payment, payments_policy db uid Op.select row = true) ∧
  (∀ row : MaintenanceRequest, maintenance_policy db uid Op.select row = true) ∧
  (∀ (row : Property) (v : Nat), rootOwnerProperty db row = some v → v ≠ uid →
      properties_policy db uid Op.update row = false) ∧
  (∀ (row : UnitRow) (v : Nat), rootOwnerUnit db row = some v → v ≠ uid →
      units_policy db uid Op.update row = false) ∧
  (∀ (row : Tenant) (v : Nat), rootOwnerTenant db row = some v → v ≠ uid →
      tenants_policy db uid Op.update row = false) ∧
  (∀ (row : Lease) (v : Nat), rootOwnerLease db row = some v → v ≠ uid →
      leases_policy db uid Op.update row = false) ∧
  (∀ (row : Payment) (v : Nat), rootOwnerPayment db row = some v → v ≠ uid →
      payments_policy db uid Op.update row = false) ∧
  (∀ (row : MaintenanceRequest) (v : Nat), rootOwnerMaintenance db row = some v → v ≠ uid →
      maintenance_policy db uid Op.update row = false)

/-- The admission rule that actually governs the owned-resource tables:
reads are admitted iff the resolved root owner is the caller or the caller
is a super_admin; writes are admitted iff the resolved root owner is the
caller (no admin bypass on writes). -/
def OwnedAccessSpec (db : DB) (uid : Nat) : Prop :=
  (∀ row : Property,
      (properties_policy db uid Op.select row = true ↔
        (rootOwnerProperty db row = some uid ∨ has_role db uid AppRole.super_admin = true)) ∧
      (properties_policy db uid Op.update row = true ↔ rootOwnerProperty db row = some uid)) ∧
  (∀ row : UnitRow,
      (units_policy db uid Op.select row = true ↔
        (rootOwnerUnit db row = some uid ∨ has_role db uid AppRole.super_admin = true)) ∧
      (units_policy db uid Op.update row = true ↔ rootOwnerUnit db row = some uid)) ∧
  (∀ row : Tenant,
      (tenants_policy db uid Op.select row = true ↔
        (rootOwnerTenant db row = some uid ∨ has_role db uid AppRole.super_admin = true)) ∧
      (tenants_policy db uid Op.update row = true ↔ rootOwnerTenant db row = some uid)) ∧
  (∀ row : Lease,
      (leases_policy db uid Op.select row = true ↔
        (rootOwnerLease db row = some uid ∨ has_role db uid AppRole.super_admin = true)) ∧
      (leases_policy db uid Op.update row = true ↔ rootOwnerLease db row = some uid)) ∧
  (∀ row : Payment,
      (payments_policy db uid Op.select row = true ↔
        (rootOwnerPayment db row = some uid ∨ has_role db uid AppRole.super_admin = true)) ∧
      (payments_policy db uid Op.update row = true ↔ rootOwnerPayment db row = some uid)) ∧
  (∀ row : MaintenanceRequest,
      (maintenance_policy db uid Op.select row = true ↔
        (rootOwnerMaintenance db row = some uid ∨ has_role db uid AppRole.super_admin = true)) ∧
      (maintenance_policy db uid Op.update row = true ↔ rootOwnerMaintenance db row = some uid))

/-- What a non-admin caller gets on owned-resource rows resolving to a
different root owner: the row is absent from every read result and an
update of it fails with PermissionDenied, leaving the state untouched by
construction of the write operation. -/
def DenyNonOwnerSpec (db : DB) (uid : Nat) : Prop :=
  (∀ (row nr : Property) (v : Nat), rootOwnerProperty db row = some v → v ≠ uid →
      row ∉ select_properties db uid ∧
      write_property db uid row nr = Except.error DataError.permissionDenied) ∧
  (∀ (row nr : UnitRow) (v : Nat), rootOwnerUnit db row = some v → v ≠ uid →
      row ∉ select_units db uid ∧
      write_unit db uid row nr = Except.error DataError.permissionDenied) ∧
  (∀ (row nr : Tenant) (v : Nat), rootOwnerTenant db row = some v → v ≠ uid →
      row ∉ select_tenants db uid ∧
      write_tenant db uid row nr = Except.error DataError.permissionDenied) ∧
  (∀ (row nr : Lease) (v : Nat), rootOwnerLease db row = some v → v ≠ uid →
      row ∉ select_leases db uid ∧
      write_lease db uid row nr = Except.error DataError.permissionDenied) ∧
  (∀ (row nr : Payment) (v : Nat), rootOwnerPayment db row = some v → v ≠ uid →
      row ∉ select_payments db uid ∧
      write_payment db uid row nr = Except.error DataError.permissionDenied) ∧
  (∀ (row nr : MaintenanceRequest) (v : Nat), rootOwnerMaintenance db row = some v → v ≠ uid →
      row ∉ select_maintenance db uid ∧
      write_maintenance db uid row nr = Except.error DataError.permissionDenied)

/-- The frame property of `updateApproval`: position by position, a profile
row with a different id is returned unchanged, and the row with the target
id changes exactly its `approval_status` (to the new status) and its
`updated_at` (to the trigger time), every other column kept; every other
table of the database is unchanged. -/
def UpdateApprovalFrame (db : DB) (caller userId : Nat) (st : ApprovalStatus)
    (t : Nat) : Prop :=
  List.Forall₂ (fun old new =>
      (old.id ≠ userId → new = old) ∧
      (old.id = userId →
        new.approval_status = st ∧ new.updated_at = t ∧
        new.id = old.id ∧ new.email = old.email ∧
        new.full_name = old.full_name ∧ new.phone = old.phone ∧
        new.avatar_url = old.avatar_url ∧ new.created_at = old.created_at ∧
        new.date_of_birth = old.date_of_birth ∧
        new.residential_address = old.residential_address ∧
        new.city = old.city ∧ new.country = old.country ∧
        new.postal_code = old.postal_code ∧ new.id_type = old.id_type ∧
        new.id_number = old.id_number ∧
        new.id_document_url = old.id_document_url ∧
        new.payment_method = old.payment_method ∧
        new.payment_provider = old.payment_provider ∧
        new.billing_address = old.billing_address ∧
        new.security_deposit_agreed = old.security_deposit_agreed ∧
        new.terms_accepted = old.terms_accepted ∧
        new.terms_accepted_at = old.terms_accepted_at))
    db.profiles (updateApproval db caller userId st t).profiles ∧
  (updateApproval db caller userId st t).user_roles = db.user_roles ∧
  (updateApproval db caller userId st t).properties = db.properties ∧
  (updateApproval db caller userId st t).units = db.units ∧
  (updateApproval db caller userId st t).tenants = db.tenants ∧
  (updateApproval db caller userId st t).leases = db.leases ∧
  (updateApproval db caller userId st t).payments = db.payments ∧
  (updateApproval db caller userId st t).maintenance_requests = db.maintenance_requests ∧
  (updateApproval db caller userId st t).admin_activity_logs = db.admin_activity_logs

theorem inIds_iff (ids : List Nat) (x : Nat) : inIds ids x = true ↔ x ∈ ids := by
  simp [inIds, List.any_eq_true]

theorem mem_get_user_property_ids (db : DB) (uid pid : Nat) :
    pid ∈ get_user_property_ids db uid ↔
      ∃ p, p ∈ db.properties ∧ p.owner_id = uid ∧ p.id = pid := by
  simp only [get_user_property_ids, List.mem_map, List.mem_filter, beq_iff_eq]
  constructor
  · rintro ⟨p, ⟨hp, hown⟩, hid⟩
    exact ⟨p, hp, hown, hid⟩
  · rintro ⟨p, hp, hown, hid⟩
    exact ⟨p, ⟨hp, hown⟩, hid⟩

theorem find_elt {α : Type} (l : List α) (key : α → Nat)
    (h : (l.map key).Nodup) (k : Nat) (x : α) (hx : x ∈ l) (hk : key x = k) :
    l.find? (fun y => key y == k) = some x := by
  have hsome : (l.find? (fun y => key y == k)).isSome := by
    rw [List.find?_isSome]
    exact ⟨x, hx, by simp [hk]⟩
  obtain ⟨y, hy⟩ := Option.isSome_iff_exists.mp hsome
  have hymem := List.mem_of_find?_eq_some hy
  have hykey : key y = k := by
    have := List.find?_some hy
    exact beq_iff_eq.mp this
  have hxy : y = x := List.inj_on_of_nodup_map h hymem hx (by rw [hykey, hk])
  rw [hy, hxy]

theorem inIds_owned_iff (db : DB) (uid pid : Nat)
    (h : (db.properties.map Property.id).Nodup) :
    inIds (get_user_property_ids db uid) pid = true ↔
      (lookupProperty db pid).map Property.owner_id = some uid := by
  constructor
  · intro hin
    rw [inIds_iff, mem_get_user_property_ids] at hin
    obtain ⟨p, hp, hown, hid⟩ := hin
    have hf : lookupProperty db pid = some p := find_elt db.properties Property.id h pid p hp hid
    rw [hf, Option.map_some']
    rw [hown]
  · intro hmap
    unfold lookupProperty at hmap
    rw [Option.map_eq_some'] at hmap
    obtain ⟨p, hf, hown⟩ := hmap
    have hp := List.mem_of_find?_eq_some hf
    have hid0 := List.find?_some hf
    simp only [beq_iff_eq] at hid0
    rw [inIds_iff, mem_get_user_property_ids]
    exact ⟨p, hp, hown, hid0⟩

theorem chain_owned_iff {α : Type} (l : List α) (key : α → Nat)
    (h : (l.map key).Nodup) (k : Nat) (cond : α → Bool) (res : α → Option Nat)
    (uid : Nat) (hcond : ∀ x ∈ l, (cond x = true ↔ res x = some uid)) :
    (l.any fun x => key x == k && cond x) = true ↔
      (l.find? (fun x => key x == k)).bind res = some uid := by
  constructor
  · intro hany
    rw [List.any_eq_true] at hany
    obtain ⟨x, hx, hpx⟩ := hany
    rw [Bool.and_eq_true] at hpx
    obtain ⟨hkx, hcx⟩ := hpx
    have hf := find_elt l key h k x hx (beq_iff_eq.mp hkx)
    rw [hf]
    simpa using (hcond x hx).mp hcx
  · intro hb
    rw [Option.bind_eq_some] at hb
    obtain ⟨x, hf, hres⟩ := hb
    have hx := List.mem_of_find?_eq_some hf
    have hkx := List.find?_some hf
    rw [List.any_eq_true]
    exact ⟨x, hx, by rw [Bool.and_eq_true]; exact ⟨hkx, (hcond x hx).mpr hres⟩⟩

theorem unit_owned_iff (db : DB) (uid : Nat) (row : UnitRow)
    (h : (db.properties.map Property.id).Nodup) :
    unit_owned db uid row = true ↔ rootOwnerUnit db row = some uid :=
  inIds_owned_iff db uid row.property_id h

theorem lease_owned_iff (db : DB) (uid : Nat) (row : Lease)
    (h1 : (db.properties.map Property.id).Nodup)
    (h2 : (db.units.map UnitRow.id).Nodup) :
    lease_owned db uid row = true ↔ rootOwnerLease db row = some uid := by
  have hc : ∀ u ∈ db.units,
      ((fun u => inIds (get_user_property_ids db uid) u.property_id) u = true ↔
        rootOwnerUnit db u = some uid) :=
    fun u _ => unit_owned_iff db uid u h1
  exact chain_owned_iff db.units UnitRow.id h2 row.unit_id
    (fun u => inIds (get_user_property_ids db uid) u.property_id)
    (fun u => rootOwnerUnit db u) uid hc

theorem payment_owned_iff (db : DB) (uid : Nat) (row : Payment)
    (h1 : (db.properties.map Property.id).Nodup)
    (h2 : (db.units.map UnitRow.id).Nodup)
    (h3 : (db.leases.map Lease.id).Nodup) :
    payment_owned db uid row = true ↔ rootOwnerPayment db row = some uid := by
  have hc : ∀ l ∈ db.leases,
      ((fun l => lease_owned db uid l) l = true ↔ rootOwnerLease db l = some uid) :=
    fun l _ => lease_owned_iff db uid l h1 h2
  exact chain_owned_iff db.leases Lease.id h3 row.lease_id
    (fun l => lease_owned db uid l)
    (fun l => rootOwnerLease db l) uid hc

theorem maintenance_owned_iff (db : DB) (uid : Nat) (row : MaintenanceRequest)
    (h1 : (db.properties.map Property.id).Nodup)
    (h2 : (db.units.map UnitRow.id).Nodup) :
    maintenance_owned db uid row = true ↔ rootOwnerMaintenance db row = some uid := by
  have hc : ∀ u ∈ db.units,
      ((fun u => inIds (get_user_property_ids db uid) u.property_id) u = true ↔
        rootOwnerUnit db u = some uid) :=
    fun u _ => unit_owned_iff db uid u h1
  exact chain_owned_iff db.units UnitRow.id h2 row.unit_id
    (fun u => inIds (get_user_property_ids db uid) u.property_id)
    (fun u => rootOwnerUnit db u) uid hc

theorem has_role_iff (db : DB) (u : Nat) (r : AppRole) :
    has_role db u r = true ↔
      ∃ row, row ∈ db.user_roles ∧ row.user_id = u ∧ row.role = r := by
  simp [has_role, List.any_eq_true]

theorem owned_false_of_rootOwner {b : Bool} {r : Option Nat} {uid v : Nat}
    (hiff : b = true ↔ r = some uid) (hv : r = some v) (hne : v ≠ uid) :
    b = false := by
  cases hb : b
  · rfl
  · exact absurd (Option.some.inj (hv.symm.trans (hiff.mp hb))) hne

theorem property_owned_iff (db : DB) (uid : Nat) (row : Property) :
    (uid == row.owner_id) = true ↔ rootOwnerProperty db row = some uid := by
  unfold rootOwnerProperty
  rw [beq_iff_eq]
  constructor
  · intro h; rw [h]
  · intro h; exact (Option.some.inj h).symm

theorem tenant_owned_iff (db : DB) (uid : Nat) (row : Tenant) :
    (uid == row.owner_id) = true ↔ rootOwnerTenant db row = some uid := by
  unfold rootOwnerTenant
  rw [beq_iff_eq]
  constructor
  · intro h; rw [h]
  · intro h; exact (Option.some.inj h).symm

theorem forall2_map_self {α β : Type} (l : List α) (f : α → β) (P : α → β → Prop)
    (h : ∀ x ∈ l, P x (f x)) : List.Forall₂ P l (l.map f) := by
  induction l with
  | nil => exact List.Forall₂.nil
  | cons a t ih =>
    exact List.Forall₂.cons (h a (List.mem_cons_self a t))
      (ih (fun x hx => h x (List.mem_cons_of_mem a hx)))

/-- C1: evaluating the guard at the failing input — an authenticated
non-admin user whose profile approval_status is rejected — shows that the
component renders the pending "awaiting approval" view, not the blocking
"access denied" (rejected) view: the not-approved check precedes the
rejected check, so the rejected branch is unreachable. -/
theorem C1_rejected_user_gets_pending_view :
    ApprovalGuard false (some 1) [AppRole.property_owner]
        (some ApprovalStatus.rejected) = GuardRender.pendingView ∧
      ApprovalGuard false (some 1) [AppRole.property_owner]
        (some ApprovalStatus.rejected) ≠ GuardRender.rejectedView := by
  constructor
  · rfl
  · decide

/-- C2 (amended): the admin workflow updateApproval performs only the
profile-status update; it never writes the audit log — for every database
state, caller, target and new status, admin_activity_logs is unchanged. -/
theorem C2_updateApproval_writes_no_audit_entry (db : DB) (caller userId : Nat)
    (st : ApprovalStatus) (t : Nat) :
    (updateApproval db caller userId st t).admin_activity_logs =
      db.admin_activity_logs := rfl

/-- C2: counterexample — a super_admin (identity 20) approving the pending
user 10 through updateApproval leaves the audit log with zero entries, not
the one entry per transition the claim requires. -/
theorem C2_counterexample :
    ¬ ((updateApproval exDB 20 10 ApprovalStatus.approved 5).admin_activity_logs.length
        = exDB.admin_activity_logs.length + 1) := by
  decide

/-- C7: a caller holding super_admin is never blocked by approval status —
for every authenticated user, role set containing super_admin and any
profile approval status (pending, approved, rejected or missing), the
guard renders the requested protected view. -/
theorem C7_super_admin_bypasses_approval (uid : Nat) (roles : List AppRole)
    (profile : Option ApprovalStatus)
    (hadmin : hasRole roles AppRole.super_admin = true) :
    ApprovalGuard false (some uid) roles profile = GuardRender.content := by
  simp [ApprovalGuard, hadmin]

/-- C7 witness: a super_admin whose own profile is rejected still gets the
protected view. -/
theorem C7_witness :
    hasRole [AppRole.super_admin] AppRole.super_admin = true ∧
      ApprovalGuard false (some 1) [AppRole.super_admin]
        (some ApprovalStatus.rejected) = GuardRender.content :=
  ⟨by decide,
   C7_super_admin_bypasses_approval 1 [AppRole.super_admin]
     (some ApprovalStatus.rejected) (by decide)⟩

/-- C8: has_role is an existence check over the (user, role) pairs — it is
true iff at least one user_roles row for that user with that role exists,
and adding a row for a different user or a different role never changes
its result (a user may hold several roles simultaneously). -/
theorem C8_has_role_is_existence_check (db : DB) (u : Nat) (r : AppRole) :
    (has_role db u r = true ↔
      ∃ row, row ∈ db.user_roles ∧ row.user_id = u ∧ row.role = r) ∧
    (∀ extra : UserRole, extra.user_id ≠ u ∨ extra.role ≠ r →
      has_role { db with user_roles := extra :: db.user_roles } u r =
        has_role db u r) := by
  constructor
  · exact has_role_iff db u r
  · intro extra hx
    simp only [has_role, List.any_cons]
    cases hx with
    | inl h => simp [h]
    | inr h => simp [h]

/-- C8 witness: in the concrete database, identity 20 holds super_admin
exactly because a matching row exists, and granting 20 an additional
property_owner role leaves the super_admin check unchanged. -/
theorem C8_witness :
    (has_role exDB 20 AppRole.super_admin = true ↔
      ∃ row, row ∈ exDB.user_roles ∧ row.user_id = 20 ∧
        row.role = AppRole.super_admin) ∧
    has_role { exDB with user_roles :=
        { id := 9, user_id := 20, role := AppRole.property_owner } :: exDB.user_roles }
      20 AppRole.super_admin = has_role exDB 20 AppRole.super_admin :=
  ⟨(C8_has_role_is_existence_check exDB 20 AppRole.super_admin).1,
   (C8_has_role_is_existence_check exDB 20 AppRole.super_admin).2
     { id := 9, user_id := 20, role := AppRole.property_owner }
     (Or.inr (by decide))⟩

/-- C10: once account creation succeeds, handleSignup reports success and
navigates regardless of an ID-document upload failure or a KYC
profile-update failure; such failures are only logged to the console, the
document URL stays null on upload failure and the KYC update is simply not
applied on update failure. -/
theorem C10_signup_tolerates_kyc_failures (uid : Nat)
    (uploadRes : Except String String) (perr : Option String) :
    (handleSignup (Except.ok uid) uploadRes perr).report =
        SignupReport.successToastAndNavigate ∧
    (∀ e, uploadRes = Except.error e →
      (handleSignup (Except.ok uid) uploadRes perr).idDocumentUrlSent = none) ∧
    (∀ e, perr = some e →
      (handleSignup (Except.ok uid) uploadRes perr).profileUpdateApplied = false) ∧
    (∀ e, uploadRes = Except.error e →
      ("ID upload error: " ++ e) ∈
        (handleSignup (Except.ok uid) uploadRes perr).consoleErrors) ∧
    (∀ e, perr = some e →
      ("Profile update error: " ++ e) ∈
        (handleSignup (Except.ok uid) uploadRes perr).consoleErrors) := by
  refine ⟨?_, ?_, ?_, ?_, ?_⟩
  · cases uploadRes <;> simp [handleSignup]
  · intro e he; subst he; simp [handleSignup]
  · intro e he; subst he; cases uploadRes <;> simp [handleSignup]
  · intro e he; subst he; simp [handleSignup]
  · intro e he; subst he; cases uploadRes <;> simp [handleSignup]

/-- C10 witness: with both the upload and the profile update failing, the
signup still reports success, the document URL is null and the KYC update
is not applied. -/
theorem C10_witness :
    (handleSignup (Except.ok 1) (Except.error "upload failed")
        (some "update failed")).report = SignupReport.successToastAndNavigate ∧
    (handleSignup (Except.ok 1) (Except.error "upload failed")
        (some "update failed")).idDocumentUrlSent = none ∧
    (handleSignup (Except.ok 1) (Except.error "upload failed")
        (some "update failed")).profileUpdateApplied = false :=
  ⟨(C10_signup_tolerates_kyc_failures 1 (Except.error "upload failed")
      (some "update failed")).1,
   (C10_signup_tolerates_kyc_failures 1 (Except.error "upload failed")
      (some "update failed")).2.1 "upload failed" rfl,
   (C10_signup_tolerates_kyc_failures 1 (Except.error "upload failed")
      (some "update failed")).2.2.1 "update failed" rfl⟩

/-- C3: counterexample — identity 20 holds super_admin and owns no
property, yet its update of property 1 (owned by identity 10) is denied
with PermissionDenied: writes to owned-resource tables do not succeed
under an admin bypass involving rows the caller does not own. -/
theorem C3_counterexample :
    has_role exDB 20 AppRole.super_admin = true ∧
    (∀ p ∈ exDB.properties, p.owner_id ≠ 20) ∧
    write_property exDB 20 { id := 1, owner_id := 10 } { id := 1, owner_id := 20 } =
      Except.error DataError.permissionDenied :=
  ⟨by decide, by decide, rfl⟩

/-- C3 (amended): for every identity holding super_admin, reads and updates
on the Profile table and all operations on the Role table succeed
regardless of ownership, and reads on every owned-resource table succeed;
but writes to owned-resource tables targeting rows whose resolved root
owner is a different identity are denied (the admin policies on those
tables cover SELECT only). -/
theorem C3_super_admin_access (db : DB) (uid : Nat)
    (hadmin : has_role db uid AppRole.super_admin = true) (hwf : db.wf) :
    AdminBypassSpec db uid := by
  obtain ⟨hwp, hwu, hwl⟩ := hwf
  refine ⟨?_, ?_, ?_, ?_, ?_, ?_, ?_, ?_, ?_, ?_, ?_, ?_, ?_, ?_⟩
  · intro p
    exact ⟨by simp [profiles_policy, hadmin], by simp [profiles_policy, hadmin]⟩
  · intro r op
    cases op <;> simp [user_roles_policy, hadmin]
  · intro row; simp [properties_policy, hadmin]
  · intro row; simp [units_policy, hadmin]
  · intro row; simp [tenants_policy, hadmin]
  · intro row; simp [leases_policy, hadmin]
  · intro row; simp [payments_policy, hadmin]
  · intro row; simp [maintenance_policy, hadmin]
  · intro row v hv hne
    exact owned_false_of_rootOwner (property_owned_iff db uid row) hv hne
  · intro row v hv hne
    exact owned_false_of_rootOwner (unit_owned_iff db uid row hwp) hv hne
  · intro row v hv hne
    exact owned_false_of_rootOwner (tenant_owned_iff db uid row) hv hne
  · intro row v hv hne
    exact owned_false_of_rootOwner (lease_owned_iff db uid row hwp hwu) hv hne
  · intro row v hv hne
    exact owned_false_of_rootOwner (payment_owned_iff db uid row hwp hwu hwl) hv hne
  · intro row v hv hne
    exact owned_false_of_rootOwner (maintenance_owned_iff db uid row hwp hwu) hv hne

/-- C3 witness: the amended statement instantiated at the concrete
database with super_admin identity 20. -/
theorem C3_witness :
    has_role exDB 20 AppRole.super_admin = true ∧ exDB.wf ∧
      AdminBypassSpec exDB 20 :=
  ⟨by decide, by decide, C3_super_admin_access exDB 20 (by decide) (by decide)⟩

/-- C4: counterexample — the claimed admission rule (admitted iff root
owner equals the caller or the caller holds super_admin) fails for writes:
identity 20 is a super_admin, payment 4 resolves to root owner 10, and the
write is denied although the claimed rule admits it. -/
theorem C4_counterexample :
    ¬ ((payments_policy exDB 20 Op.update { id := 4, lease_id := 3 } = true) ↔
      (rootOwnerPayment exDB { id := 4, lease_id := 3 } = some 20 ∨
        has_role exDB 20 AppRole.super_admin = true)) := by
  decide

/-- C4 (amended): in a database with unique primary keys along the
ownership chain, a read of an owned-resource row is admitted iff the root
owner_id resolved by walking the foreign-key chain equals the caller or
the caller holds super_admin, while a write is admitted iff the resolved
root owner_id equals the caller (no super_admin bypass for writes). -/
theorem C4_ownership_resolution_rule (db : DB) (uid : Nat) (hwf : db.wf) :
    OwnedAccessSpec db uid := by
  obtain ⟨hwp, hwu, hwl⟩ := hwf
  refine ⟨?_, ?_, ?_, ?_, ?_, ?_⟩
  · intro row
    refine ⟨?_, property_owned_iff db uid row⟩
    show (uid == row.owner_id || has_role db uid AppRole.super_admin) = true ↔ _
    rw [Bool.or_eq_true]
    exact or_congr (property_owned_iff db uid row) Iff.rfl
  · intro row
    refine ⟨?_, unit_owned_iff db uid row hwp⟩
    show (unit_owned db uid row || has_role db uid AppRole.super_admin) = true ↔ _
    rw [Bool.or_eq_true]
    exact or_congr (unit_owned_iff db uid row hwp) Iff.rfl
  · intro row
    refine ⟨?_, tenant_owned_iff db uid row⟩
    show (uid == row.owner_id || has_role db uid AppRole.super_admin) = true ↔ _
    rw [Bool.or_eq_true]
    exact or_congr (tenant_owned_iff db uid row) Iff.rfl
  · intro row
    refine ⟨?_, lease_owned_iff db uid row hwp hwu⟩
    show (lease_owned db uid row || has_role db uid AppRole.super_admin) = true ↔ _
    rw [Bool.or_eq_true]
    exact or_congr (lease_owned_iff db uid row hwp hwu) Iff.rfl
  · intro row
    refine ⟨?_, payment_owned_iff db uid row hwp hwu hwl⟩
    show (payment_owned db uid row || has_role db uid AppRole.super_admin) = true ↔ _
    rw [Bool.or_eq_true]
    exact or_congr (payment_owned_iff db uid row hwp hwu hwl) Iff.rfl
  · intro row
    refine ⟨?_, maintenance_owned_iff db uid row hwp hwu⟩
    show (maintenance_owned db uid row || has_role db uid AppRole.super_admin) = true ↔ _
    rw [Bool.or_eq_true]
    exact or_congr (maintenance_owned_iff db uid row hwp hwu) Iff.rfl

/-- C4 witness: the amended admission rule instantiated at the concrete
database for the role-less identity 30. -/
theorem C4_witness : exDB.wf ∧ OwnedAccessSpec exDB 30 :=
  ⟨by decide, C4_ownership_resolution_rule exDB 30 (by decide)⟩

/-- C5: immediately after the registration trigger runs for a fresh
identity, exactly one profile row for that identity exists and it has
approval_status pending, and exactly one role row for that identity exists
and it has role property_owner. -/
theorem C5_registration_creates_pending_profile_and_owner_role (db : DB)
    (nu : NewUser) (t rid : Nat)
    (hfp : ∀ p ∈ db.profiles, p.id ≠ nu.id)
    (hfr : ∀ r ∈ db.user_roles, r.user_id ≠ nu.id) :
    ((handle_new_user db nu t rid).profiles.filter
        (fun p => p.id == nu.id)).map Profile.approval_status =
      [ApprovalStatus.pending] ∧
    ((handle_new_user db nu t rid).user_roles.filter
        (fun r => r.user_id == nu.id)).map UserRole.role =
      [AppRole.property_owner] := by
  constructor
  · have h1 : db.profiles.filter (fun p => p.id == nu.id) = [] := by
      rw [List.filter_eq_nil_iff]
      intro a ha
      simp [hfp a ha]
    simp [handle_new_user, List.filter_append, h1]
  · have h1 : db.user_roles.filter (fun r => r.user_id == nu.id) = [] := by
      rw [List.filter_eq_nil_iff]
      intro a ha
      simp [hfr a ha]
    simp [handle_new_user, List.filter_append, h1]

/-- C5 witness: registering identity 1 in the empty database yields its
pending profile and its single property_owner role. -/
theorem C5_witness :
    (∀ p ∈ emptyDB.profiles, p.id ≠ nu0.id) ∧
    (∀ r ∈ emptyDB.user_roles, r.user_id ≠ nu0.id) ∧
    ((handle_new_user emptyDB nu0 0 0).profiles.filter
        (fun p => p.id == nu0.id)).map Profile.approval_status =
      [ApprovalStatus.pending] ∧
    ((handle_new_user emptyDB nu0 0 0).user_roles.filter
        (fun r => r.user_id == nu0.id)).map UserRole.role =
      [AppRole.property_owner] :=
  ⟨by decide, by decide,
   C5_registration_creates_pending_profile_and_owner_role emptyDB nu0 0 0
     (by decide) (by decide)⟩

/-- C6: a caller without super_admin, against an owned-resource row whose
resolved root owner is a different identity, gets an empty read (the row
is filtered out of every select) and a write denied with PermissionDenied
that applies nothing — across all six owned-resource tables. -/
theorem C6_non_owner_read_empty_write_denied (db : DB) (uid : Nat)
    (hwf : db.wf) (hnoadmin : has_role db uid AppRole.super_admin = false) :
    DenyNonOwnerSpec db uid := by
  obtain ⟨hwp, hwu, hwl⟩ := hwf
  refine ⟨?_, ?_, ?_, ?_, ?_, ?_⟩
  · intro row nr v hv hne
    have hc : (uid == row.owner_id) = false :=
      owned_false_of_rootOwner (property_owned_iff db uid row) hv hne
    constructor
    · intro hmem
      simp only [select_properties] at hmem
      have h2 := (List.mem_filter.mp hmem).2
      simp [properties_policy, hc, hnoadmin] at h2
    · simp [write_property, properties_policy, hc]
  · intro row nr v hv hne
    have hc : unit_owned db uid row = false :=
      owned_false_of_rootOwner (unit_owned_iff db uid row hwp) hv hne
    constructor
    · intro hmem
      simp only [select_units] at hmem
      have h2 := (List.mem_filter.mp hmem).2
      simp [units_policy, hc, hnoadmin] at h2
    · simp [write_unit, units_policy, hc]
  · intro row nr v hv hne
    have hc : (uid == row.owner_id) = false :=
      owned_false_of_rootOwner (tenant_owned_iff db uid row) hv hne
    constructor
    · intro hmem
      simp only [select_tenants] at hmem
      have h2 := (List.mem_filter.mp hmem).2
      simp [tenants_policy, hc, hnoadmin] at h2
    · simp [write_tenant, tenants_policy, hc]
  · intro row nr v hv hne
    have hc : lease_owned db uid row = false :=
      owned_false_of_rootOwner (lease_owned_iff db uid row hwp hwu) hv hne
    constructor
    · intro hmem
      simp only [select_leases] at hmem
      have h2 := (List.mem_filter.mp hmem).2
      simp [leases_policy, hc, hnoadmin] at h2
    · simp [write_lease, leases_policy, hc]
  · intro row nr v hv hne
    have hc : payment_owned db uid row = false :=
      owned_false_of_rootOwner (payment_owned_iff db uid row hwp hwu hwl) hv hne
    constructor
    · intro hmem
      simp only [select_payments] at hmem
      have h2 := (List.mem_filter.mp hmem).2
      simp [payments_policy, hc, hnoadmin] at h2
    · simp [write_payment, payments_policy, hc]
  · intro row nr v hv hne
    have hc : maintenance_owned db uid row = false :=
      owned_false_of_rootOwner (maintenance_owned_iff db uid row hwp hwu) hv hne
    constructor
    · intro hmem
      simp only [select_maintenance] at hmem
      have h2 := (List.mem_filter.mp hmem).2
      simp [maintenance_policy, hc, hnoadmin] at h2
    · simp [write_maintenance, maintenance_policy, hc]

/-- C6 witness: the role-less identity 30 against the concrete database in
which every owned resource resolves to root owner 10. -/
theorem C6_witness :
    exDB.wf ∧ has_role exDB 30 AppRole.super_admin = false ∧
      DenyNonOwnerSpec exDB 30 :=
  ⟨by decide, by decide,
   C6_non_owner_read_empty_write_denied exDB 30 (by decide) (by decide)⟩

/-- C9: a successful updateApproval by a super_admin changes exactly the
approval_status (and the trigger-maintained updated_at) of the profile
rows whose id equals the target; every other column of that profile, every
other profile row, and every other table are unchanged. -/
theorem C9_updateApproval_frame (db : DB) (caller userId : Nat)
    (st : ApprovalStatus) (t : Nat)
    (hadmin : has_role db caller AppRole.super_admin = true) :
    UpdateApprovalFrame db caller userId st t := by
  refine ⟨?_, rfl, rfl, rfl, rfl, rfl, rfl, rfl, rfl⟩
  refine forall2_map_self db.profiles _ _ ?_
  intro p hp
  by_cases hid : p.id = userId
  · have hc : (p.id == userId && profiles_policy db caller Op.update p) = true := by
      simp [hid, profiles_policy, hadmin]
    refine ⟨fun h => absurd hid h, fun _ => ?_⟩
    rw [if_pos hc]
    simp
  · have hc : (p.id == userId && profiles_policy db caller Op.update p) = false := by
      simp [beq_iff_eq, hid]
    have hnc : ¬ ((p.id == userId && profiles_policy db caller Op.update p) = true) := by
      simp [hc]
    refine ⟨fun _ => ?_, fun h => absurd h hid⟩
    rw [if_neg hnc]

/-- C9 witness: the frame property instantiated at the concrete database,
super_admin caller 20 approving user 10 at time 5. -/
theorem C9_witness :
    has_role exDB 20 AppRole.super_admin = true ∧
      UpdateApprovalFrame exDB 20 10 ApprovalStatus.approved 5 :=
  ⟨by decide, C9_updateApproval_frame exDB 20 10 ApprovalStatus.approved 5 (by decide)⟩

end Machaco
